import Mathlib

/-!
Shallow embedding of `unjobs_watcher.py`, a polling job-listing watcher:
it parses job records from pages, deduplicates them by `id`, filters
against a persisted set of already-seen ids, delivers a notification
(Telegram with email fallback), and persists the grown seen set as a
sorted list.

I/O boundaries are modelled as explicit data: environment variables as
`Env`, network outcomes as `Net`, the concatenated per-page parse
results of a cycle as a `List Job` input to `check_once`, and the seen
file's state as `FileState`.  Each Lean definition mirrors the Python
function of the same name; functions whose Python body can raise an
uncaught exception return `Except`.
-/

namespace UnjobsWatcher

/-- One parsed job listing, mirroring the dict built in `parse_jobs`:
`{"id": job_id, "title": title, "org": org, "link": link, "updated": updated}`. -/
structure Job where
  id : String
  title : String
  org : String
  link : String
  updated : String
deriving DecidableEq, Repr

/-- Environment variables read by the notification code.  `none` models an
unset variable; Python truthiness also treats the empty string as unset
(`if not (token and chat)`), which `truthy` captures.  `smtpPort` is the
raw `SMTP_PORT` string: `send_email` feeds it (or the literal `587` when
it is unset or empty) to `int(...)` before its configuration check and
outside its `try` block, so a non-numeric value makes `send_email` raise. -/
structure Env where
  telegramToken : Option String
  telegramChat : Option String
  smtpHost : Option String
  smtpUser : Option String
  smtpPass : Option String
  alertEmail : Option String
  smtpPort : Option String
deriving DecidableEq, Repr

/-- Outcomes of the network requests a cycle may make: whether the Telegram
POST would succeed and whether the SMTP session would succeed.  The code
catches all exceptions from these requests and turns them into `False`
returns, so a `Bool` per channel is a faithful boundary. -/
structure Net where
  telegramOk : Bool
  emailOk : Bool
deriving DecidableEq, Repr

/-- Python truthiness of an optional environment string: unset or empty is
falsy. -/
def truthy : Option String → Bool
  | none => false
  | some s => s != ""

/-- Whether `TELEGRAM_BOT_TOKEN` and `TELEGRAM_CHAT_ID` are both truthy,
mirroring `if not (token and chat): return False` in `send_telegram`. -/
def telegramConfigured (e : Env) : Bool :=
  truthy e.telegramToken && truthy e.telegramChat

/-- Function `send_telegram`: returns `False` when the token/chat configuration is
absent; otherwise the request is attempted and any exception is caught and
turned into `False`. -/
def send_telegram (e : Env) (net : Net) : Bool :=
  if telegramConfigured e then net.telegramOk else false

/-- Whether the four SMTP variables `SMTP_HOST`, `SMTP_USER`, `SMTP_PASS`,
`ALERT_EMAIL` are all truthy, mirroring `if not (host and user and pw and to)`. -/
def emailConfigured (e : Env) : Bool :=
  truthy e.smtpHost && truthy e.smtpUser && truthy e.smtpPass && truthy e.alertEmail

/-- The uncaught exception the notification path can raise: the
`ValueError` from `int(os.getenv("SMTP_PORT") or 587)` when `SMTP_PORT`
holds a non-numeric string. -/
inductive PyError
  | valueError
deriving DecidableEq, Repr

/-- Tail of a Python integer numeral after its first digit: further digits,
with single underscores permitted between digits only. -/
def pyIntTail : List Char → Bool
  | [] => true
  | '_' :: c :: cs => c.isDigit && pyIntTail cs
  | ['_'] => false
  | c :: cs => c.isDigit && pyIntTail cs

/-- Whether a character list is a non-empty decimal numeral (digits with
single underscores between digits, as Python `int` accepts). -/
def pyDigits : List Char → Bool
  | [] => false
  | c :: cs => c.isDigit && pyIntTail cs

/-- Whether Python `int(s)` succeeds on a string: optional surrounding
whitespace, an optional single sign, then a non-empty decimal numeral;
anything else raises `ValueError`. -/
def pyIntOk (s : String) : Bool :=
  match ((s.data.dropWhile Char.isWhitespace).reverse.dropWhile Char.isWhitespace).reverse with
  | '+' :: rest => pyDigits rest
  | '-' :: rest => pyDigits rest
  | cs => pyDigits cs

/-- Whether the conversion `int(os.getenv("SMTP_PORT") or 587)` at the top
of `send_email` succeeds: an unset or empty variable falls back to the
integer literal `587`, which always converts; any other string must be a
numeral, otherwise `int` raises.  This line runs before the configuration
check and outside the `try` block. -/
def portParseOk (e : Env) : Bool :=
  match e.smtpPort with
  | none => true
  | some s => if s = "" then true else pyIntOk s

/-- The boolean `send_email` returns when the port conversion does not
raise: `False` when the SMTP configuration is absent, otherwise the
outcome of the SMTP session, whose exceptions are caught and turned into
`False`. -/
def send_email_val (e : Env) (net : Net) : Bool :=
  if emailConfigured e then net.emailOk else false

/-- Function `send_email`: first converts the port variable, raising
`ValueError` on a non-numeric `SMTP_PORT`; then returns `False` when the
SMTP configuration is absent, and otherwise attempts the SMTP session with
its exceptions caught.  The numeric port value itself only selects the
connection port, so beyond raising or not it does not affect the outcome. -/
def send_email (e : Env) (net : Net) : Except PyError Bool :=
  if portParseOk e then Except.ok (send_email_val e net)
  else Except.error PyError.valueError

/-- The five entries `alert` appends to `lines` for one job:
bolded title, the organization (or empty), the link, the
`Updated: ...` text when a timestamp is present (or empty), and the
empty separator entry. -/
def jobLines (j : Job) : List String :=
  ["<b>" ++ j.title ++ "</b>",
   j.org,
   j.link,
   if j.updated = "" then "" else "Updated: " ++ j.updated,
   ""]

/-- The message `alert` builds:
`msg = "\n".join([x for x in lines if x != ""])` over the accumulated
`lines` of all new jobs. -/
def formatMsg (new_jobs : List Job) : String :=
  String.intercalate "\n" (((new_jobs.map jobLines).flatten).filter (fun x => x != ""))

/-- A notification channel. -/
inductive Chan
  | telegram
  | email
deriving DecidableEq, Repr

/-- Observable outcome of `alert`: the message it built, the channels it
invoked in order, and whether any channel reported success. -/
structure AlertResult where
  message : String
  channels : List Chan
  delivered : Bool
deriving DecidableEq, Repr

/-- Function `alert`: returns immediately on an empty list; otherwise
builds the message and tries Telegram; on failure (including absent
configuration) it calls the email fallback.  `alert` has no exception
handler, so the `ValueError` the fallback can raise propagates to the
caller. -/
def alert (e : Env) (net : Net) (new_jobs : List Job) : Except PyError AlertResult :=
  if new_jobs.isEmpty then Except.ok ⟨"", [], false⟩
  else
    let msg := formatMsg new_jobs
    if send_telegram e net then Except.ok ⟨msg, [Chan.telegram], true⟩
    else
      match send_email e net with
      | Except.ok ok => Except.ok ⟨msg, [Chan.telegram, Chan.email], ok⟩
      | Except.error err => Except.error err

/-- The result `alert` returns when the port conversion does not raise;
used to state the normal-path lemmas. -/
def alertValue (e : Env) (net : Net) (new_jobs : List Job) : AlertResult :=
  if new_jobs.isEmpty then ⟨"", [], false⟩
  else if send_telegram e net then ⟨formatMsg new_jobs, [Chan.telegram], true⟩
  else ⟨formatMsg new_jobs, [Chan.telegram, Chan.email], send_email_val e net⟩

/-- The intra-run deduplication loop of `check_once`, carrying the `uniq`
set of ids already kept:

```
for j in found:
    if j["id"] in uniq: continue
    uniq.add(j["id"]); seen_ids.append(j)
```
-/
def dedupLoop : List Job → Finset String → List Job
  | [], _ => []
  | j :: rest, uniq =>
      if j.id ∈ uniq then dedupLoop rest uniq
      else j :: dedupLoop rest (insert j.id uniq)

/-- Intra-run deduplication, started from the empty `uniq` set. -/
def dedup (found : List Job) : List Job :=
  dedupLoop found ∅

/-- The novelty filter of `check_once`:
`new = [j for j in seen_ids if j["id"] not in seen]`. -/
def noveltyFilter (jobs : List Job) (seen : Finset String) : List Job :=
  jobs.filter (fun j => decide (j.id ∉ seen))

/-- The full differ of one cycle: intra-run dedup then novelty filter. -/
def newOf (found : List Job) (seen : Finset String) : List Job :=
  noveltyFilter (dedup found) seen

/-- Function `save_seen`: the file content written, `json.dump(sorted(seen), ...)`,
modelled as the sorted list of the set's elements. -/
def save_seen (seen : Finset String) : List String :=
  seen.sort (· ≤ ·)

/-- Observable outcome of one `check_once` cycle: the new records it
detected, the delivery attempt's outcome, the seen set it returns, and the
file content it saved (`none` when `save_seen` was not called). -/
structure CycleResult where
  new : List Job
  alertResult : AlertResult
  seenAfter : Finset String
  saved : Option (List String)
deriving DecidableEq

/-- Function `check_once`, from the point where the per-page fetch/parse
results have been concatenated into `found`: dedup, novelty-filter against
`seen`, and when new records exist, alert, add their ids to `seen`, and
save.  The `alert` call is not wrapped in any handler (the `try` in the
source only covers fetching and parsing), so an exception from the email
fallback aborts the cycle before `seen.update` and `save_seen` run. -/
def check_once (e : Env) (net : Net) (found : List Job) (seen : Finset String) :
    Except PyError CycleResult :=
  let new := newOf found seen
  if new.isEmpty then Except.ok ⟨new, ⟨"", [], false⟩, seen, none⟩
  else
    match alert e net new with
    | Except.error err => Except.error err
    | Except.ok a =>
        let seen' := seen ∪ (new.map (·.id)).toFinset
        Except.ok ⟨new, a, seen', some (save_seen seen')⟩

/-- The seen set as it stands after one cycle: the returned set on a normal
return; on the exception path the raise happens inside the `alert` call,
before `seen.update` runs, so the set is unchanged. -/
def seenAfterRun (e : Env) (net : Net) (found : List Job) (seen : Finset String) :
    Finset String :=
  match check_once e net found seen with
  | Except.ok r => r.seenAfter
  | Except.error _ => seen

/-- One anchor element matched by `soup.find_all("a", href=re.compile(r"/jobs/"))`,
together with the outcomes of the two best-effort DOM extractions around it:
`text` is `a.get_text(strip=True)`, `href` is `a.get("href") or ""`,
`orgCandidate` is the result of the six-step sibling walk (empty when the walk
finds nothing), and `updatedMatch` is the token captured after the literal
`Updated:` prefix by `a.find_next(string=...)` when that search matched. -/
structure Anchor where
  text : String
  href : String
  orgCandidate : String
  updatedMatch : Option String
deriving DecidableEq, Repr

/-- The record-building loop of `parse_jobs`, carrying `seen_links`.  URL
resolution (`urljoin`) is a pure library function taken as a parameter:

```
title = a.get_text(strip=True); link = urljoin(base, href)
if not title or link in seen_links: continue
seen_links.add(link)
...
job_id = f"{link}::{updated}"
```
-/
def parseLoop (urljoin : String → String → String) (base : String) :
    List Anchor → Finset String → List Job
  | [], _ => []
  | a :: rest, seen_links =>
      let title := a.text
      let link := urljoin base a.href
      if title = "" ∨ link ∈ seen_links then parseLoop urljoin base rest seen_links
      else
        let updated := a.updatedMatch.getD ""
        { id := link ++ "::" ++ updated, title := title, org := a.orgCandidate,
          link := link, updated := updated } :: parseLoop urljoin base rest (insert link seen_links)

/-- Function `parse_jobs` over the anchors found in a page, starting from an empty
`seen_links` set. -/
def parse_jobs (urljoin : String → String → String) (base : String)
    (anchors : List Anchor) : List Job :=
  parseLoop urljoin base anchors ∅

/-- A JSON value, as `json.load` can produce one. -/
inductive JValue
  | str (s : String)
  | num (n : Int)
  | bool (b : Bool)
  | null
  | arr (xs : List JValue)
  | obj (kvs : List (String × JValue))

/-- State of the `seen_jobs.json` file: absent, present but not valid JSON,
or present with some JSON content. -/
inductive FileState
  | absent
  | invalid
  | content (v : JValue)

/-- The exception `load_seen` can raise: `json.load` raising on malformed
JSON, or `set(...)` raising on a non-iterable value. -/
inductive LoadErr
  | decodeError
  | typeError
deriving DecidableEq, Repr

/-- The elements Python iteration yields for a JSON value, or `none` when the
value is not iterable: a list yields its elements, a string its characters as
one-character strings, an object its keys; numbers, booleans and `None` raise
`TypeError`. -/
def pyElems : JValue → Option (List JValue)
  | .arr xs => some xs
  | .str s => some (s.data.map (fun c => .str c.toString))
  | .obj kvs => some (kvs.map (fun kv => .str kv.1))
  | .num _ => none
  | .bool _ => none
  | .null => none

/-- Function `load_seen`: an absent file yields the empty set; an existing file is
parsed by `json.load` (raising on malformed JSON) and its value is passed to
`set(...)` (raising on a non-iterable value).  The result is the list of
elements the set was built from. -/
def load_seen : FileState → Except LoadErr (List JValue)
  | .absent => .ok []
  | .invalid => .error .decodeError
  | .content v =>
      match pyElems v with
      | some xs => .ok xs
      | none => .error .typeError

/-- Whether a JSON value is an array whose elements are all strings, the
shape the specification says `load` requires. -/
def isStringList : JValue → Bool
  | .arr xs => xs.all (fun x => match x with | .str _ => true | _ => false)
  | _ => false

/-- Whether Python iteration over a JSON value succeeds (lists, strings and
objects are iterable; numbers, booleans and `None` are not). -/
def pyIterable : JValue → Bool
  | .arr _ => true
  | .str _ => true
  | .obj _ => true
  | .num _ => false
  | .bool _ => false
  | .null => false

/-- An environment with every notification variable unset. -/
def envNone : Env := ⟨none, none, none, none, none, none, none⟩

/-- The crashing environment: nothing configured except `SMTP_PORT`, which
holds the non-numeric string `"abc"`, so `int(os.getenv("SMTP_PORT") or
587)` raises `ValueError`. -/
def envBadPort : Env := ⟨none, none, none, none, none, none, some "abc"⟩

/-- A network on which both the Telegram POST and the SMTP session would
fail. -/
def netFail : Net := ⟨false, false⟩

/-- The two listings of the end-to-end scenario, with ids `A::t1` and
`B::t2`. -/
def jobA : Job := ⟨"A::t1", "TA", "OrgA", "A", "t1"⟩

/-- Second listing of the end-to-end scenario. -/
def jobB : Job := ⟨"B::t2", "TB", "OrgB", "B", "t2"⟩

/-! ### Helper lemmas about the deduplication loop -/

theorem dedupLoop_sublist (l : List Job) : ∀ u : Finset String, (dedupLoop l u).Sublist l := by
  induction l with
  | nil => intro u; simp [dedupLoop]
  | cons j rest ih =>
      intro u
      by_cases h : j.id ∈ u
      · simp only [dedupLoop, if_pos h]
        exact (ih u).cons j
      · simp only [dedupLoop, if_neg h]
        exact (ih (insert j.id u)).cons₂ j

theorem id_not_mem_of_mem_dedupLoop (l : List Job) :
    ∀ (u : Finset String) (j : Job), j ∈ dedupLoop l u → j.id ∉ u := by
  induction l with
  | nil => intro u j hj; simp [dedupLoop] at hj
  | cons a rest ih =>
      intro u j hj
      by_cases h : a.id ∈ u
      · rw [dedupLoop, if_pos h] at hj
        exact ih u j hj
      · rw [dedupLoop, if_neg h] at hj
        rcases List.mem_cons.mp hj with rfl | hj'
        · exact h
        · intro hmem
          exact ih (insert a.id u) j hj' (Finset.mem_insert_of_mem hmem)

theorem dedupLoop_ids_nodup (l : List Job) :
    ∀ u : Finset String, ((dedupLoop l u).map (·.id)).Nodup := by
  induction l with
  | nil => intro u; simp [dedupLoop]
  | cons a rest ih =>
      intro u
      by_cases h : a.id ∈ u
      · rw [dedupLoop, if_pos h]
        exact ih u
      · rw [dedupLoop, if_neg h]
        rw [List.map_cons, List.nodup_cons]
        refine ⟨?_, ih (insert a.id u)⟩
        intro hmem
        rcases List.mem_map.mp hmem with ⟨x, hx, hid⟩
        exact id_not_mem_of_mem_dedupLoop rest (insert a.id u) x hx
          (hid ▸ Finset.mem_insert_self a.id u)

theorem dedupLoop_find_first (l : List Job) :
    ∀ (u : Finset String) (j : Job), j ∈ dedupLoop l u →
      l.find? (fun x => x.id == j.id) = some j := by
  induction l with
  | nil => intro u j hj; simp [dedupLoop] at hj
  | cons a rest ih =>
      intro u j hj
      by_cases h : a.id ∈ u
      · rw [dedupLoop, if_pos h] at hj
        have hne : a.id ≠ j.id := fun he =>
          id_not_mem_of_mem_dedupLoop rest u j hj (he ▸ h)
        rw [List.find?_cons_of_neg _ (by simpa using hne)]
        exact ih u j hj
      · rw [dedupLoop, if_neg h] at hj
        rcases List.mem_cons.mp hj with rfl | hj'
        · exact List.find?_cons_of_pos _ (by simp)
        · have hne : a.id ≠ j.id := fun he =>
            id_not_mem_of_mem_dedupLoop rest (insert a.id u) j hj'
              (he ▸ Finset.mem_insert_self a.id u)
          rw [List.find?_cons_of_neg _ (by simpa using hne)]
          exact ih (insert a.id u) j hj'

theorem dedupLoop_covers (l : List Job) :
    ∀ (u : Finset String) (j : Job), j ∈ l → j.id ∉ u →
      ∃ j' ∈ dedupLoop l u, j'.id = j.id := by
  induction l with
  | nil => intro u j hj; simp at hj
  | cons a rest ih =>
      intro u j hj hu
      by_cases h : a.id ∈ u
      · rw [dedupLoop, if_pos h]
        rcases List.mem_cons.mp hj with rfl | hj'
        · exact absurd h hu
        · exact ih u j hj' hu
      · rw [dedupLoop, if_neg h]
        by_cases hid : j.id = a.id
        · exact ⟨a, List.mem_cons_self a _, hid.symm⟩
        · rcases List.mem_cons.mp hj with rfl | hj'
          · exact absurd rfl hid
          · rcases ih (insert a.id u) j hj'
              (fun hm => (Finset.mem_insert.mp hm).elim hid hu) with ⟨j', hj'', hid'⟩
            exact ⟨j', List.mem_cons_of_mem a hj'', hid'⟩

/-! ### Claim theorems -/

/-- C3: intra-run deduplication keeps only the first record for each
distinct `id`, dropping later duplicates silently and preserving the
original first-seen order: its output is an order-preserving sublist of the
input with pairwise-distinct ids; every retained record is exactly the
first record of the input with its id (so of two records sharing an id but
differing elsewhere, only the first-encountered survives); and every input
id is still represented. -/
theorem dedup_keeps_first (l : List Job) :
    (dedup l).Sublist l ∧
    ((dedup l).map (·.id)).Nodup ∧
    (∀ j ∈ dedup l, l.find? (fun x => x.id == j.id) = some j) ∧
    (∀ j ∈ l, ∃ j' ∈ dedup l, j'.id = j.id) :=
  ⟨dedupLoop_sublist l ∅,
   dedupLoop_ids_nodup l ∅,
   fun j hj => dedupLoop_find_first l ∅ j hj,
   fun j hj => dedupLoop_covers l ∅ j hj (Finset.not_mem_empty _)⟩

/-- First record of a duplicated-id pair used to witness C3. -/
def jDupFirst : Job := ⟨"X::t", "first title", "", "X", "t"⟩

/-- Second record of the pair: same `id` as `jDupFirst`, different title. -/
def jDupSecond : Job := ⟨"X::t", "second title", "", "X", "t"⟩

/-- Witness for C3 at a concrete duplicated-id input: the first-encountered
record is in the dedup output and is the input's first record with that id. -/
theorem dedup_keeps_first_witness :
    jDupFirst ∈ dedup [jDupFirst, jDupSecond] ∧
    [jDupFirst, jDupSecond].find? (fun x => x.id == jDupFirst.id) = some jDupFirst := by
  have hm : jDupFirst ∈ dedup [jDupFirst, jDupSecond] := by decide
  exact ⟨hm, (dedup_keeps_first [jDupFirst, jDupSecond]).2.2.1 jDupFirst hm⟩

/-- C2: the novelty filter is idempotent while the seen set is unchanged
(filtering an already-filtered list returns it unchanged, so a second call
on the same input returns the same result), and after committing the
returned ids into the seen set, the same input filters to the empty list. -/
theorem noveltyFilter_idempotent (jobs : List Job) (seen : Finset String) :
    noveltyFilter (noveltyFilter jobs seen) seen = noveltyFilter jobs seen ∧
    noveltyFilter jobs (seen ∪ ((noveltyFilter jobs seen).map (·.id)).toFinset) = [] := by
  constructor
  · rw [noveltyFilter, noveltyFilter, List.filter_filter]
    simp
  · rw [noveltyFilter, List.filter_eq_nil_iff]
    intro j hj
    simp only [decide_eq_true_eq, not_not]
    by_cases h : j.id ∈ seen
    · exact Finset.mem_union_left _ h
    · refine Finset.mem_union_right _ (List.mem_toFinset.mpr ?_)
      exact List.mem_map.mpr ⟨j, List.mem_filter.mpr ⟨hj, by simpa using h⟩, rfl⟩

/-- C10: the "new" sequence of the differ has pairwise-distinct ids, every
record in it occurs in the input list, and none of its ids is in the seen
set. -/
theorem newOf_invariants (found : List Job) (seen : Finset String) :
    ((newOf found seen).map (·.id)).Nodup ∧
    ∀ j ∈ newOf found seen, j ∈ found ∧ j.id ∉ seen := by
  constructor
  · have h : (newOf found seen).Sublist (dedup found) := List.filter_sublist _
    exact List.Nodup.sublist (h.map (·.id)) (dedupLoop_ids_nodup found ∅)
  · intro j hj
    rcases List.mem_filter.mp hj with ⟨hd, hpred⟩
    exact ⟨(dedupLoop_sublist found ∅).mem hd, by simpa using hpred⟩

/-- Witness for C10 at a concrete input: the single new record is in the
input and its id is not in the (empty) seen set. -/
theorem newOf_invariants_witness :
    jobA ∈ [jobA] ∧ jobA.id ∉ (∅ : Finset String) := by
  have hm : jobA ∈ newOf [jobA] ∅ := by decide
  exact (newOf_invariants [jobA] ∅).2 jobA hm

/-- When the port conversion does not raise, `alert` returns normally with
the value described by `alertValue`. -/
theorem alert_of_portParse (e : Env) (net : Net) (new_jobs : List Job)
    (hp : portParseOk e = true) :
    alert e net new_jobs = Except.ok (alertValue e net new_jobs) := by
  rw [alert, alertValue, send_email, hp]
  by_cases he : new_jobs.isEmpty
  · simp [he]
  · cases hst : send_telegram e net <;> simp [he, hst]

/-- Unfolding of `check_once` when new records exist and the port
conversion does not raise. -/
theorem check_once_of_ne (e : Env) (net : Net) (found : List Job) (seen : Finset String)
    (h : (newOf found seen).isEmpty = false) (hp : portParseOk e = true) :
    check_once e net found seen =
      Except.ok ⟨newOf found seen, alertValue e net (newOf found seen),
       seen ∪ ((newOf found seen).map (·.id)).toFinset,
       some (save_seen (seen ∪ ((newOf found seen).map (·.id)).toFinset))⟩ := by
  simp [check_once, h, alert_of_portParse e net _ hp]

/-- Unfolding of `check_once` when no new record exists: `alert` is never
reached. -/
theorem check_once_of_empty (e : Env) (net : Net) (found : List Job) (seen : Finset String)
    (h : (newOf found seen).isEmpty = true) :
    check_once e net found seen = Except.ok ⟨newOf found seen, ⟨"", [], false⟩, seen, none⟩ := by
  simp [check_once, h]

/-- Any normal return of `check_once` carries a seen set containing the
input set. -/
theorem seenAfter_of_ok (e : Env) (net : Net) (found : List Job) (seen : Finset String)
    (r : CycleResult) (h : check_once e net found seen = Except.ok r) :
    seen ⊆ r.seenAfter := by
  by_cases he : (newOf found seen).isEmpty
  · rw [check_once_of_empty e net found seen he] at h
    cases h
    exact Finset.Subset.refl seen
  · cases ha : alert e net (newOf found seen) with
    | ok a =>
        simp only [check_once, he, Bool.false_eq_true, if_false, ha] at h
        cases h
        exact Finset.subset_union_left
    | error err =>
        simp [check_once, he, ha] at h

/-- C9: the seen set only grows across a cycle (also on the exception path,
where it is left untouched — no operation removes an entry), and
`save_seen` serializes a set as the sorted list of its elements (sorted,
and carrying exactly the set's elements). -/
theorem seen_only_grows (e : Env) (net : Net) (found : List Job) (seen : Finset String) :
    seen ⊆ seenAfterRun e net found seen ∧
    List.Sorted (· ≤ ·) (save_seen seen) ∧
    (save_seen seen).toFinset = seen := by
  refine ⟨?_, Finset.sort_sorted _ _, Finset.sort_toFinset _ _⟩
  rw [seenAfterRun]
  cases hc : check_once e net found seen with
  | ok r => exact seenAfter_of_ok e net found seen r hc
  | error err => exact Finset.Subset.refl seen

/-- Counterexample for C7 as stated: with no channel configured at all but
`SMTP_PORT` set to the non-numeric string `"abc"`, a cycle with one new
record raises `ValueError` out of the `alert` call and aborts before
`seen.update`/`save_seen` — nothing is marked seen or saved. -/
theorem persist_unconditional_counterexample :
    newOf [jobA] (∅ : Finset String) ≠ [] ∧
    telegramConfigured envBadPort = false ∧
    emailConfigured envBadPort = false ∧
    check_once envBadPort netFail [jobA] ∅ = Except.error PyError.valueError := by
  refine ⟨by decide, rfl, rfl, rfl⟩

/-- C7 amended: whenever the cycle's new-record sequence is non-empty and
the `SMTP_PORT` variable is unset, empty or numeric (so the email
fallback's `int` conversion cannot raise), the orchestrator adds every new
id to the seen set and persists exactly that grown set, regardless of
whether any notification channel is configured or succeeds; with a
non-numeric `SMTP_PORT` the cycle can instead abort before persisting. -/
theorem persist_unconditional (e : Env) (net : Net) (found : List Job) (seen : Finset String)
    (h : newOf found seen ≠ []) (hp : portParseOk e = true) :
    ∃ r, check_once e net found seen = Except.ok r ∧
      r.seenAfter = seen ∪ ((newOf found seen).map (·.id)).toFinset ∧
      r.saved = some (save_seen (seen ∪ ((newOf found seen).map (·.id)).toFinset)) ∧
      ∀ j ∈ newOf found seen, j.id ∈ r.seenAfter := by
  have hempty : (newOf found seen).isEmpty = false := by
    simp [List.isEmpty_iff, h]
  refine ⟨_, check_once_of_ne e net found seen hempty hp, rfl, rfl, ?_⟩
  intro j hj
  exact Finset.mem_union_right _
    (List.mem_toFinset.mpr (List.mem_map.mpr ⟨j, hj, rfl⟩))

/-- Witness for the amended C7 at a concrete input with no channel
configured and both requests failing: the seen set and the saved content
still grow by the new id. -/
theorem persist_unconditional_witness :
    newOf [jobA] (∅ : Finset String) ≠ [] ∧ portParseOk envNone = true ∧
    ∃ r, check_once envNone netFail [jobA] ∅ = Except.ok r ∧
      r.seenAfter = ∅ ∪ ((newOf [jobA] ∅).map (·.id)).toFinset ∧
      r.saved = some (save_seen (∅ ∪ ((newOf [jobA] ∅).map (·.id)).toFinset)) ∧
      ∀ j ∈ newOf [jobA] ∅, j.id ∈ r.seenAfter :=
  ⟨by decide, rfl, persist_unconditional envNone netFail [jobA] ∅ (by decide) rfl⟩

/-- Characterization of a successful Telegram send: configuration present
and the request succeeding. -/
theorem send_telegram_eq_true_iff (e : Env) (net : Net) :
    send_telegram e net = true ↔ telegramConfigured e = true ∧ net.telegramOk = true := by
  rw [send_telegram]
  by_cases hc : telegramConfigured e <;> simp [hc]

/-- Counterexample for C6 as stated: with the Telegram configuration absent
and `SMTP_PORT` set to the non-numeric string `"abc"`, delivery for a
non-empty list reaches the email fallback, whose `int` conversion raises
before the configuration check — a `ValueError` propagates to the caller
instead of the quiet fallback the claim promises. -/
theorem alert_fallback_counterexample :
    telegramConfigured envBadPort = false ∧
    send_email envBadPort netFail = Except.error PyError.valueError ∧
    alert envBadPort netFail [jobA] = Except.error PyError.valueError := by
  refine ⟨rfl, rfl, rfl⟩

/-- C6 amended: delivery for a non-empty list always attempts Telegram
first; when the Telegram configuration is absent or its request fails,
email is invoked automatically; and — provided the `SMTP_PORT` variable is
unset, empty or numeric — no error reaches the caller: the call returns
normally even when both channels fail (`delivered = false`).  With a
non-numeric `SMTP_PORT`, the email fallback instead raises out of the
call. -/
theorem alert_fallback (e : Env) (net : Net) (jobs : List Job) (h : jobs ≠ [])
    (hp : portParseOk e = true) :
    ∃ r, alert e net jobs = Except.ok r ∧
      r.channels.head? = some Chan.telegram ∧
      ((telegramConfigured e = false ∨ net.telegramOk = false) →
        r.channels = [Chan.telegram, Chan.email]) ∧
      ((send_telegram e net = false ∧ send_email_val e net = false) →
        r.delivered = false) := by
  have hempty : jobs.isEmpty = false := by simp [List.isEmpty_iff, h]
  refine ⟨_, alert_of_portParse e net jobs hp, ?_, ?_, ?_⟩
  · rw [alertValue]
    cases hst : send_telegram e net <;> simp [hempty, hst]
  · rintro (hcf | hof)
    · have hst : send_telegram e net = false := by simp [send_telegram, hcf]
      rw [alertValue]; simp [hempty, hst]
    · have hst : send_telegram e net = false := by
        rw [send_telegram]
        by_cases hc : telegramConfigured e <;> simp [hc, hof]
      rw [alertValue]; simp [hempty, hst]
  · rintro ⟨hst, hef⟩
    rw [alertValue]; simp [hempty, hst, hef]

/-- Witness for the amended C6 at a concrete input with no configuration at
all: the fallback to email happens and the call returns normally with
`delivered = false`. -/
theorem alert_fallback_witness :
    ([jobA] : List Job) ≠ [] ∧ portParseOk envNone = true ∧
    ∃ r, alert envNone netFail [jobA] = Except.ok r ∧
      r.channels.head? = some Chan.telegram ∧
      ((telegramConfigured envNone = false ∨ netFail.telegramOk = false) →
        r.channels = [Chan.telegram, Chan.email]) ∧
      ((send_telegram envNone netFail = false ∧ send_email_val envNone netFail = false) →
        r.delivered = false) :=
  ⟨by decide, rfl, alert_fallback envNone netFail [jobA] (by decide) rfl⟩

/-- Sorting the two scenario ids puts `A::t1` first. -/
theorem save_seen_scenario :
    save_seen ({"A::t1", "B::t2"} : Finset String) = ["A::t1", "B::t2"] := by
  rw [save_seen, Finset.sort_insert, Finset.sort_singleton]
  · intro b hb
    rw [Finset.mem_singleton] at hb
    subst hb
    rw [String.le_iff_toList_le]
    decide
  · decide

/-- Counterexample for C1 as stated: under the environment where
`SMTP_PORT` is the non-numeric string `"abc"` and nothing else is
configured, the first cycle of the scenario detects its 2 new records and
attempts delivery, but the email fallback raises `ValueError` out of
`check_once` before `seen.update`/`save_seen` run — no seen file is
persisted, so the scenario's guarantee fails for this run of the program. -/
theorem end_to_end_counterexample :
    newOf [jobA, jobB] (∅ : Finset String) = [jobA, jobB] ∧
    check_once envBadPort netFail [jobA, jobB] ∅ = Except.error PyError.valueError := by
  refine ⟨by decide, rfl⟩

/-- C1 amended: the end-to-end scenario, for every environment whose
`SMTP_PORT` variable is unset, empty or numeric (so the email fallback's
`int` conversion cannot raise).  Over parsed records with ids `A::t1` and
`B::t2` and an empty seen set, one cycle detects exactly 2 new records,
attempts delivery (Telegram first), and saves exactly the sorted list
`["A::t1", "B::t2"]`; a second cycle over the same records and the
resulting seen set detects 0 new records and performs no save.  With a
non-numeric `SMTP_PORT` the first cycle can instead crash and persist
nothing. -/
theorem end_to_end_two_cycles (e : Env) (net : Net) (hp : portParseOk e = true) :
    ∃ r1, check_once e net [jobA, jobB] ∅ = Except.ok r1 ∧
      r1.new.length = 2 ∧
      r1.alertResult.channels.head? = some Chan.telegram ∧
      r1.saved = some ["A::t1", "B::t2"] ∧
      ∃ r2, check_once e net [jobA, jobB] r1.seenAfter = Except.ok r2 ∧
        r2.new = [] ∧ r2.saved = none := by
  have hnew : newOf [jobA, jobB] ∅ = [jobA, jobB] := by decide
  have hfin : ((∅ : Finset String) ∪ (([jobA, jobB] : List Job).map (·.id)).toFinset)
      = ({"A::t1", "B::t2"} : Finset String) := by decide
  have hr1 : check_once e net [jobA, jobB] ∅ =
      Except.ok ⟨[jobA, jobB], alertValue e net [jobA, jobB], {"A::t1", "B::t2"},
        some (save_seen {"A::t1", "B::t2"})⟩ := by
    rw [check_once_of_ne e net [jobA, jobB] ∅ (by decide) hp, hnew, hfin]
  have hnew2 : newOf [jobA, jobB] ({"A::t1", "B::t2"} : Finset String) = [] := by decide
  have hr2 : check_once e net [jobA, jobB] ({"A::t1", "B::t2"} : Finset String) =
      Except.ok ⟨[], ⟨"", [], false⟩, {"A::t1", "B::t2"}, none⟩ := by
    rw [check_once_of_empty e net [jobA, jobB] _ (by rw [hnew2]; rfl), hnew2]
  refine ⟨_, hr1, rfl, ?_, ?_, _, hr2, rfl, rfl⟩
  · rw [alertValue]
    cases hst : send_telegram e net <;> simp [hst]
  · rw [save_seen_scenario]

/-- Every record produced by the parsing loop has its `id` equal to its
`link` followed by `::` followed by its `updated` field. -/
theorem parseLoop_id (urljoin : String → String → String) (base : String)
    (anchors : List Anchor) :
    ∀ (s : Finset String) (j : Job), j ∈ parseLoop urljoin base anchors s →
      j.id = j.link ++ "::" ++ j.updated := by
  induction anchors with
  | nil => intro s j hj; simp [parseLoop] at hj
  | cons a rest ih =>
      intro s j hj
      rw [parseLoop] at hj
      by_cases h : a.text = "" ∨ urljoin base a.href ∈ s
      · rw [if_pos h] at hj
        exact ih s j hj
      · rw [if_neg h] at hj
        rcases List.mem_cons.mp hj with rfl | hj'
        · rfl
        · exact ih _ j hj'

/-- C4: every parsed record's `id` is the absolute link, the literal
separator `::`, then the updated string — also when `updated` is empty, in
which case the trailing separator is preserved. -/
theorem parse_id_composition (urljoin : String → String → String) (base : String)
    (anchors : List Anchor) (j : Job) (h : j ∈ parse_jobs urljoin base anchors) :
    j.id = j.link ++ "::" ++ j.updated :=
  parseLoop_id urljoin base anchors ∅ j h

/-- URL resolution used by the witness: the href of the witness anchor is
already absolute, and `urljoin` returns an absolute href unchanged. -/
def demoUrljoin : String → String → String := fun _ href => href

/-- The witness anchor: a listing with a title, an absolute link, no nearby
organization text and no `Updated:` match. -/
def demoAnchor : Anchor := ⟨"Job Title", "https://x/jobs/1", "", none⟩

/-- The record parsed from `demoAnchor`: empty `updated`, so its id keeps
the trailing separator. -/
def demoParsed : Job := ⟨"https://x/jobs/1::", "Job Title", "", "https://x/jobs/1", ""⟩

/-- Witness for C4: the record parsed from a page whose single anchor has
link `https://x/jobs/1` and no timestamp has id `https://x/jobs/1::`. -/
theorem parse_id_composition_witness :
    demoParsed ∈ parse_jobs demoUrljoin "https://unjobs.org/duty_stations/bangladesh"
        [demoAnchor] ∧
    demoParsed.id = demoParsed.link ++ "::" ++ demoParsed.updated ∧
    demoParsed.id = "https://x/jobs/1::" := by
  have hm : demoParsed ∈ parse_jobs demoUrljoin "https://unjobs.org/duty_stations/bangladesh"
      [demoAnchor] := by decide
  exact ⟨hm, parse_id_composition demoUrljoin _ [demoAnchor] demoParsed hm, rfl⟩

/-- The lines a record actually contributes to the message once `alert`'s
final filter has removed every empty entry: the bolded title, the
organization only when non-empty, the link only when non-empty, and the
`Updated:` line only when a timestamp is present.  No separator line
survives the filter. -/
def jobLinesVisible (j : Job) : List String :=
  ["<b>" ++ j.title ++ "</b>"] ++
  (if j.org = "" then [] else [j.org]) ++
  (if j.link = "" then [] else [j.link]) ++
  (if j.updated = "" then [] else ["Updated: " ++ j.updated])

/-- A bolded title entry is never the empty string. -/
theorem boldLine_ne_empty (t : String) : ("<b>" ++ t ++ "</b>") ≠ "" := by
  intro h
  have hlen : ("<b>" ++ t ++ "</b>").length = 0 := by rw [h]; rfl
  rw [String.length_append, String.length_append,
    show ("<b>" : String).length = 3 from rfl, show ("</b>" : String).length = 4 from rfl] at hlen
  omega

/-- An `Updated:` entry is never the empty string. -/
theorem updatedLine_ne_empty (u : String) : ("Updated: " ++ u) ≠ "" := by
  intro h
  have hlen : ("Updated: " ++ u).length = 0 := by rw [h]; rfl
  rw [String.length_append, show ("Updated: " : String).length = 9 from rfl] at hlen
  omega

/-- Boolean form of `boldLine_ne_empty`, as the filter tests it. -/
theorem boldLine_bne (t : String) : (("<b>" ++ t ++ "</b>") != "") = true := by
  simp only [bne_iff_ne, ne_eq]
  exact boldLine_ne_empty t

/-- Boolean form of `updatedLine_ne_empty`, as the filter tests it. -/
theorem updatedLine_bne (u : String) : (("Updated: " ++ u) != "") = true := by
  simp only [bne_iff_ne, ne_eq]
  exact updatedLine_ne_empty u

/-- Filtering the five raw entries of one record keeps exactly its visible
lines: the separator entry and the empty placeholders all disappear. -/
theorem jobLines_filter (j : Job) :
    (jobLines j).filter (fun x => x != "") = jobLinesVisible j := by
  by_cases ho : j.org = "" <;> by_cases hl : j.link = "" <;> by_cases hu : j.updated = "" <;>
    simp [jobLines, jobLinesVisible, ho, hl, hu, List.filter_cons, bne_iff_ne,
      boldLine_ne_empty j.title, updatedLine_ne_empty j.updated]

/-- Whether a character sequence contains two adjacent newline characters,
i.e. whether the message it spells would display a blank line between two
content lines. -/
def hasBlankLine : List Char → Bool
  | a :: b :: rest => (a == '\n' && b == '\n') || hasBlankLine (b :: rest)
  | _ => false

/-- Counterexample input for C5: two records with empty organization and
empty updated fields. -/
def jPlain1 : Job := ⟨"L1::", "T1", "", "L1", ""⟩

/-- Second record of the C5 counterexample input. -/
def jPlain2 : Job := ⟨"L2::", "T2", "", "L2", ""⟩

/-- Counterexample for C5 as stated: the claim says the blank separator
line between records is kept, but the message built for two records
contains no blank line at all — its lines are exactly the two title lines
and the two link lines, joined directly. -/
theorem formatMsg_separator_counterexample :
    formatMsg [jPlain1, jPlain2]
      = "<b>T1</b>" ++ "\n" ++ "L1" ++ "\n" ++ "<b>T2</b>" ++ "\n" ++ "L2" ∧
    hasBlankLine (formatMsg [jPlain1, jPlain2]).toList = false ∧
    (formatMsg [jPlain1, jPlain2]).toList.getLast? = some '2' := by
  refine ⟨rfl, by decide, by decide⟩

/-- C5 amended: each record contributes its bolded title line, an
organization line only if non-empty, a link line (when non-empty), and an
`Updated:` line only if non-empty — but the blank separator lines are
suppressed by the same filter that removes the empty placeholders, so the
joined message contains no empty line at all. -/
theorem formatMsg_amended (jobs : List Job) :
    formatMsg jobs = String.intercalate "\n" ((jobs.map jobLinesVisible).flatten) ∧
    "" ∉ (jobs.map jobLinesVisible).flatten := by
  constructor
  · rw [formatMsg, List.filter_flatten, List.map_map,
      show (List.filter (fun x => x != "")) ∘ jobLines = jobLinesVisible
        from funext jobLines_filter]
  · intro hmem
    rcases List.mem_flatten.mp hmem with ⟨l, hl, hin⟩
    rcases List.mem_map.mp hl with ⟨j, _, rfl⟩
    rw [jobLinesVisible] at hin
    simp only [List.mem_append, List.mem_singleton] at hin
    rcases hin with ((he | he) | he) | he
    · exact boldLine_ne_empty j.title he.symm
    · by_cases ho : j.org = "" <;> simp [ho] at he
      exact ho (he.symm)
    · by_cases hl' : j.link = "" <;> simp [hl'] at he
      exact hl' (he.symm)
    · by_cases hu : j.updated = "" <;> simp [hu] at he
      exact updatedLine_ne_empty j.updated (by rw [he])

/-- Counterexample for C8 as stated: a file whose content is the JSON
object `{}` is not parseable as a list of strings, yet `load_seen` does not
fail — `set(json.load(f))` happily iterates the object's keys and returns
the empty set. -/
theorem load_seen_not_list_counterexample :
    isStringList (JValue.obj []) = false ∧
    load_seen (FileState.content (JValue.obj [])) = Except.ok [] :=
  ⟨rfl, rfl⟩

/-- C8 amended: an absent file silently yields the empty set; a file that
is not valid JSON fails with an error; an existing JSON value fails exactly
when it is not iterable (a number, boolean or `null`) — any iterable value
(arrays of any element type, strings, objects) loads without error, so in
particular a genuine list of strings loads without error.  The failure is
raised, not swallowed. -/
theorem load_seen_amended (v : JValue) :
    load_seen FileState.absent = Except.ok [] ∧
    load_seen FileState.invalid = Except.error LoadErr.decodeError ∧
    (pyIterable v = false → load_seen (FileState.content v) = Except.error LoadErr.typeError) ∧
    (pyIterable v = true → ∃ xs, load_seen (FileState.content v) = Except.ok xs) ∧
    (isStringList v = true → ∃ xs, load_seen (FileState.content v) = Except.ok xs) := by
  refine ⟨rfl, rfl, ?_, ?_, ?_⟩
  · intro h
    cases v with
    | num n => rfl
    | bool b => rfl
    | null => rfl
    | arr xs => simp [pyIterable] at h
    | str sv => simp [pyIterable] at h
    | obj kvs => simp [pyIterable] at h
  · intro h
    cases v with
    | arr xs => exact ⟨xs, rfl⟩
    | str sv => exact ⟨_, rfl⟩
    | obj kvs => exact ⟨_, rfl⟩
    | num n => simp [pyIterable] at h
    | bool b => simp [pyIterable] at h
    | null => simp [pyIterable] at h
  · intro h
    cases v with
    | arr xs => exact ⟨xs, rfl⟩
    | str sv => simp [isStringList] at h
    | obj kvs => simp [isStringList] at h
    | num n => simp [isStringList] at h
    | bool b => simp [isStringList] at h
    | null => simp [isStringList] at h

/-- Witness for the amended C8 at concrete inputs: the JSON number `5` is
not iterable and loading it fails with the type error, while the string
list `["A::t1"]` loads without error. -/
theorem load_seen_amended_witness :
    (pyIterable (JValue.num 5) = false ∧
      load_seen (FileState.content (JValue.num 5)) = Except.error LoadErr.typeError) ∧
    (isStringList (JValue.arr [JValue.str "A::t1"]) = true ∧
      ∃ xs, load_seen (FileState.content (JValue.arr [JValue.str "A::t1"])) = Except.ok xs) :=
  ⟨⟨rfl, (load_seen_amended (JValue.num 5)).2.2.1 rfl⟩,
   ⟨rfl, (load_seen_amended (JValue.arr [JValue.str "A::t1"])).2.2.2.2 rfl⟩⟩

/-- Witness for C2 at a concrete input: both idempotence equations
evaluated at one record and the empty seen set. -/
theorem noveltyFilter_idempotent_witness :
    noveltyFilter (noveltyFilter [jobA] ∅) ∅ = noveltyFilter [jobA] ∅ ∧
    noveltyFilter [jobA] (∅ ∪ ((noveltyFilter [jobA] ∅).map (·.id)).toFinset) = [] :=
  noveltyFilter_idempotent [jobA] ∅

/-- Witness for C9 at a concrete input. -/
theorem seen_only_grows_witness :
    (∅ : Finset String) ⊆ seenAfterRun envNone netFail [jobA] ∅ ∧
    List.Sorted (· ≤ ·) (save_seen ∅) ∧
    (save_seen (∅ : Finset String)).toFinset = ∅ :=
  seen_only_grows envNone netFail [jobA] ∅

/-- Witness for the amended C1 at a concrete environment and network. -/
theorem end_to_end_two_cycles_witness :
    portParseOk envNone = true ∧
    ∃ r1, check_once envNone netFail [jobA, jobB] ∅ = Except.ok r1 ∧
      r1.new.length = 2 ∧
      r1.alertResult.channels.head? = some Chan.telegram ∧
      r1.saved = some ["A::t1", "B::t2"] ∧
      ∃ r2, check_once envNone netFail [jobA, jobB] r1.seenAfter = Except.ok r2 ∧
        r2.new = [] ∧ r2.saved = none :=
  ⟨rfl, end_to_end_two_cycles envNone netFail rfl⟩

/-- Witness for the amended C5 at a concrete input. -/
theorem formatMsg_amended_witness :
    formatMsg [jPlain1] = String.intercalate "\n" (([jPlain1].map jobLinesVisible).flatten) :=
  (formatMsg_amended [jPlain1]).1

end UnjobsWatcher
